import Mathlib

/-!
Verification development for the GitLab MR review bot (`mr.py`).

The Python program is shallowly embedded: Python strings become `List Char`
(`PyStr`), every pure string operation the program uses (`lower`, `find`,
`in`, slicing, `strip`, `os.path.splitext`) is translated directly, the
webhook dispatcher and the two background handlers become total functions
from the decoded payload plus an environment of outbound-call results to
the list of outbound actions they perform, and every outbound HTTP / LLM
call is represented by an `Action` so that theorems can talk about what the
program fetches, generates and posts.
-/

namespace MRBot

/-- A Python string, embedded as its sequence of characters. -/
abbrev PyStr := List Char

/-- Embed a Lean string literal as a `PyStr`. -/
def S (s : String) : PyStr := s.toList

/-- Python `str.lower()`, modelled as character-wise ASCII case mapping.
For every string this program manipulates (ASCII command triggers, Hangul
phrases, the emoji signature) CPython's `lower()` agrees with this map. -/
def pyLower (s : PyStr) : PyStr := s.map Char.toLower

/-- The characters Python `str.strip()` removes (ASCII whitespace; the
program only ever strips ASCII whitespace). -/
def pyIsSpace (c : Char) : Bool :=
  c = ' ' || c = '\t' || c = '\n' || c = '\r' || c = '\x0b' || c = '\x0c'

/-- Python `str.strip()`. -/
def pyStrip (s : PyStr) : PyStr :=
  ((s.dropWhile pyIsSpace).reverse.dropWhile pyIsSpace).reverse

/-- Does `n` match at the very start of `h`? (helper for `find` / `in`). -/
def pyStarts : PyStr → PyStr → Bool
  | [], _ => true
  | _ :: _, [] => false
  | a :: n, b :: h => a = b && pyStarts n h

/-- Python `h.find(n)`: index of the first occurrence of `n` in `h`,
`none` for Python's `-1`. -/
def pyFind (n : PyStr) : PyStr → Option Nat
  | [] => if pyStarts n [] then some 0 else none
  | c :: t => if pyStarts n (c :: t) then some 0 else (pyFind n t).map (· + 1)

/-- Python `n in h` (substring containment). -/
def pyIn (n h : PyStr) : Bool := (pyFind n h).isSome

/-- Python `s.rfind(c)` for a single character: last index or `-1`. -/
def pyRfindChar (c : Char) (s : PyStr) : Int :=
  (List.range s.length).foldl
    (fun acc i => if s.get? i = some c then (i : Int) else acc) (-1)

/-- The extension component of `os.path.splitext(p)` (POSIX rules, as in
CPython's `genericpath._splitext`): the suffix from the last dot onwards,
provided that dot lies after the last path separator and the base name has
at least one non-dot character before it; otherwise empty. -/
def splitext_ext (p : PyStr) : PyStr :=
  let sepIndex := pyRfindChar '/' p
  let dotIndex := pyRfindChar '.' p
  if dotIndex > sepIndex then
    if (List.range p.length).any (fun k =>
        decide (sepIndex < (k : Int)) && decide ((k : Int) < dotIndex) &&
        decide (p.get? k ≠ some '.')) then
      p.drop dotIndex.toNat
    else []
  else []

/-- `BOT_SIGNATURE` (mr.py line 32): marker embedded in bot comments. -/
def BOT_SIGNATURE : PyStr := S "🤖 AI 코드 리뷰"

/-- `command_triggers` (mr.py line 425). -/
def command_triggers : List PyStr := [S "@bot", S "/review", S "/analyze"]

/-- `simple_triggers` (mr.py line 438). -/
def simple_triggers : List PyStr := [S "코드리뷰", S "코드 리뷰", S "리뷰"]

/-- The explicit-trigger scan (mr.py lines 427-435): for the first trigger
contained in the lowercased body, the user prompt is the slice of the
original body after the trigger's first occurrence, stripped. -/
def extractExplicitAux (body lb : PyStr) : List PyStr → Option PyStr
  | [] => none
  | t :: rest =>
    match pyFind t lb with
    | some i => some (pyStrip (body.drop (i + t.length)))
    | none => extractExplicitAux body lb rest

/-- Explicit-trigger extraction over `command_triggers`. -/
def extractExplicit (body : PyStr) : Option PyStr :=
  extractExplicitAux body (pyLower body) command_triggers

/-- The simple-trigger scan (mr.py lines 437-445): if any simple trigger is
contained in the lowercased body, the whole stripped body becomes the
prompt. -/
def extractSimple (body : PyStr) : Option PyStr :=
  if simple_triggers.any (fun t => pyIn t (pyLower body)) then
    some (pyStrip body)
  else none

/-- The two-tier user prompt extraction of `process_note_in_background`
(mr.py lines 424-445): explicit triggers first, simple triggers only when
no explicit trigger matched. -/
def extract_user_prompt (body : PyStr) : Option PyStr :=
  match extractExplicit body with
  | some p => some p
  | none => extractSimple body

/-- The Command Extractor of the spec (section 4.3): the signature guard of
mr.py lines 419-421 followed by the trigger scan of lines 424-445. -/
def command_extractor (body : PyStr) : Option PyStr :=
  if pyIn BOT_SIGNATURE body then none else extract_user_prompt body

/-- One entry of the `changes` array of the GitLab diff response
(read with `change.get(...)` in mr.py lines 132-157; a missing JSON key is
`none`). -/
structure Change where
  old_path : Option PyStr
  new_path : Option PyStr
  diff : Option PyStr
deriving DecidableEq

/-- The parsed body of the `/changes` endpoint, as consumed by the prompt
builders (`changes_data.get("changes", [])`). -/
structure ChangesData where
  changes : List Change
deriving DecidableEq

/-- `mr_info` as built at mr.py lines 326-329 and 468-471: both call sites
always populate both keys, so the f-string defaults of lines 117-118 never
fire and the prompt uses these values verbatim. -/
structure MrInfo where
  title : PyStr
  description : PyStr
deriving DecidableEq

/-- File path selection of mr.py line 133:
`change.get("new_path", change.get("old_path", "알 수 없는 파일"))`. -/
def change_path (c : Change) : PyStr :=
  c.new_path.getD (c.old_path.getD (S "알 수 없는 파일"))

/-- `code_extensions` (mr.py lines 136-150 and 213-227). -/
def code_extensions : List PyStr :=
  [S ".py", S ".js", S ".java", S ".cpp", S ".c", S ".h", S ".cs", S ".go",
   S ".rb", S ".php", S ".ts", S ".kt", S ".swift"]

/-- Python truthiness of the optional `user_prompt` argument
(`if user_prompt:` at mr.py lines 122 and 199): `None` and the empty
string are falsy. -/
def pyTruthy : Option PyStr → Bool
  | none => false
  | some s => !s.isEmpty

/-- Opening instruction sentence of `analyze_with_gemini` (mr.py line 115,
including the leading newline and indentation of the f-string). -/
def prompt_opening_full : PyStr :=
  S "\n    다음 GitLab Merge Request의 코드 변경 사항을 시니어 개발자가 해준다는 느낌으로 분석하고 리뷰해주세요:"

/-- Opening instruction sentence of `analyze_with_gemini_for_comment`
(mr.py line 192). -/
def prompt_opening_comment : PyStr :=
  S "\n    다음 GitLab Merge Request의 코드 변경 사항 중 제가 원하는 부분만 시니어 개발자가 해준다는 느낌으로 분석하고 리뷰해주세요:"

/-- Title/description block shared by both prompt f-strings
(mr.py lines 116-119 and 193-196, whitespace exact). -/
def prompt_mr_header (mi : MrInfo) : PyStr :=
  S "\n    \n    MR 제목: " ++ mi.title ++ S "\n    MR 설명: " ++
    mi.description ++ S "\n    "

/-- Optional user-request section (mr.py lines 122-125 and 199-202). -/
def prompt_user_section (up : Option PyStr) : PyStr :=
  if pyTruthy up then S "\n    사용자 요청: " ++ up.getD [] ++ S "\n    "
  else []

/-- The fixed "changed files" heading (mr.py lines 127-129 and 204-206). -/
def prompt_files_header : PyStr := S "\n    변경된 파일:\n    "

/-- One iteration of the per-file loop (mr.py lines 132-157 and 209-234):
the file contributes its section exactly when its lowercased extension is
in `code_extensions`, otherwise the `continue` contributes nothing. -/
def file_section (c : Change) : PyStr :=
  let fp := change_path c
  let ext := pyLower (splitext_ext fp)
  if code_extensions.contains ext then
    S "\n\n파일: " ++ fp ++ S "\n" ++ S "변경사항:\n" ++
      c.diff.getD (S "변경사항 없음") ++ S "\n"
  else []

/-- The whole per-file loop, in changeset order. -/
def prompt_files : List Change → PyStr
  | [] => []
  | c :: rest => file_section c ++ prompt_files rest

/-- Closing instruction of `analyze_with_gemini` (mr.py lines 159-163). -/
def prompt_closing_full : PyStr :=
  S "\n    위 코드 변경사항에 대하여\n    코드 품질, 잠재적 문제점, 성능 고려사항, 개선 제안\n    을 간략하게 대략 500 ~ 700자 안으로 구체적인 코드 부분과 함께 분석해주세요.\n    "

/-- Closing instruction of `analyze_with_gemini_for_comment`
(mr.py lines 236-239). -/
def prompt_closing_comment : PyStr :=
  S "\n    위 코드 변경사항에 제가 원하는 부분을을\n    간략하게 대략 300자 안으로 분석해주세요.\n    "

/-- The prompt text between the opening instruction sentence and the
closing instruction, textually identical in both builder functions:
title/description block, optional user-request section, files heading and
per-file sections. -/
def prompt_shared_sections (cd : ChangesData) (mi : MrInfo)
    (up : Option PyStr) : PyStr :=
  prompt_mr_header mi ++ prompt_user_section up ++ prompt_files_header ++
    prompt_files cd.changes

/-- The prompt accumulated by `analyze_with_gemini` just before its closing
instruction is appended (mr.py lines 114-157). -/
def prompt_core_full (cd : ChangesData) (mi : MrInfo) (up : Option PyStr) : PyStr :=
  prompt_opening_full ++ prompt_mr_header mi ++ prompt_user_section up ++
    prompt_files_header ++ prompt_files cd.changes

/-- The prompt accumulated by `analyze_with_gemini_for_comment` just before
its closing instruction is appended (mr.py lines 191-234). -/
def prompt_core_comment (cd : ChangesData) (mi : MrInfo) (up : Option PyStr) : PyStr :=
  prompt_opening_comment ++ prompt_mr_header mi ++ prompt_user_section up ++
    prompt_files_header ++ prompt_files cd.changes

/-- The full-review prompt built by `analyze_with_gemini`
(mr.py lines 114-163). -/
def analyze_with_gemini_prompt (cd : ChangesData) (mi : MrInfo)
    (up : Option PyStr) : PyStr :=
  prompt_core_full cd mi up ++ prompt_closing_full

/-- The targeted-comment prompt built by `analyze_with_gemini_for_comment`
(mr.py lines 191-239). -/
def analyze_with_gemini_for_comment_prompt (cd : ChangesData) (mi : MrInfo)
    (up : Option PyStr) : PyStr :=
  prompt_core_comment cd mi up ++ prompt_closing_comment

/-- Outcome of a `model.generate_content` call: the generated text, or the
exception detail when the call raised. -/
inductive GeminiOutcome where
  | ok (text : PyStr)
  | error (msg : PyStr)
deriving DecidableEq

/-- Result of `model.generate_content` as the callers see it
(mr.py lines 165-172 and 241-248): the generated text on success, a
human-readable error string on any exception. -/
def gemini_result : GeminiOutcome → PyStr
  | .ok t => t
  | .error e => S "코드 분석 중 오류가 발생했습니다: " ++ e

/-- Full-review comment template (mr.py lines 335-342). -/
def mr_review_comment (analysis : PyStr) : PyStr :=
  (S "\n## " ++ BOT_SIGNATURE ++ S "\n\n") ++ analysis ++
    S "\n\n---\n*이 리뷰는 자동으로 생성되었습니다. [Git](https://github.com/PMRAZOR/Gitlab-MR-Review-Bot)*\n"

/-- Note-path review comment template (mr.py lines 483-490). -/
def note_review_comment (username analysis : PyStr) : PyStr :=
  (S "\n## " ++ BOT_SIGNATURE ++ S " - 사용자 요청\n\n") ++ analysis ++
    (S "\n\n---\n*이 리뷰는 @" ++ username ++
      S "님의 요청에 의해 생성되었습니다. [Git](https://github.com/PMRAZOR/Gitlab-MR-Review-Bot)*\n")

/-- The fallback comment posted on the note path when the diff fetch fails
(mr.py line 456). -/
def fallback_comment : PyStr :=
  S "변경 사항을 가져올 수 없어 코드 리뷰를 수행할 수 없습니다."

/-- The fields of a decoded webhook payload that the program reads
(`data.get(...)` chains in mr.py): a missing key is `none`;
`has_merge_request` models `"merge_request" in data` (line 380). -/
structure Payload where
  object_kind : Option PyStr
  action : Option PyStr
  target_project_id : Option Int
  attrs_iid : Option Int
  attrs_title : Option PyStr
  attrs_description : Option PyStr
  note_id : Option Int
  note : Option PyStr
  project_id : Option Int
  noteable_type : Option PyStr
  noteable_id : Option Int
  noteable_iid : Option Int
  has_merge_request : Bool
  merge_request_iid : Option Int
  username : Option PyStr
deriving DecidableEq

/-- One entry of the project MR listing used for iid resolution
(mr.py lines 392-397). -/
structure MrListEntry where
  id : Option Int
  iid : Option Int
deriving DecidableEq

/-- The single-MR metadata response as read at mr.py lines 466-471. -/
structure MrMeta where
  title : Option PyStr
  description : Option PyStr
deriving DecidableEq

/-- Results of the outbound calls a background task may make; `none`
models the failure sentinel (non-200 status, timeout or exception). -/
structure Env where
  changes : Option ChangesData
  mr_list : Option (List MrListEntry)
  mr_meta : Option MrMeta
  gemini : GeminiOutcome
deriving DecidableEq

/-- The outbound calls a background task performs, in order. -/
inductive Action where
  | fetch_changes (project_id mr_iid : Option Int)
  | fetch_mr_meta (project_id mr_iid : Option Int)
  | list_mrs (project_id : Option Int)
  | call_gemini (prompt : PyStr)
  | post_comment (project_id mr_iid : Option Int) (body : PyStr)
deriving DecidableEq

/-- Is the action the MR-list lookup used only for iid resolution? -/
def is_mr_listing : Action → Bool
  | .list_mrs _ => true
  | _ => false

/-- The bodies of the comments a task posts, in order. -/
def posted_comments (acts : List Action) : List PyStr :=
  acts.filterMap fun a =>
    match a with
    | .post_comment _ _ b => some b
    | _ => none

/-- `process_mr_in_background` (mr.py lines 296-353) as the list of
outbound actions it performs: abort on a non open/update action, fetch
the diff, abort on failure, otherwise generate and post the signed
review comment. -/
def process_mr_in_background (d : Payload) (env : Env) : List Action :=
  if d.action = some (S "open") ∨ d.action = some (S "update") then
    match env.changes with
    | none => [Action.fetch_changes d.target_project_id d.attrs_iid]
    | some cd =>
      [Action.fetch_changes d.target_project_id d.attrs_iid,
       Action.call_gemini (analyze_with_gemini_prompt cd
         { title := d.attrs_title.getD [],
           description := d.attrs_description.getD [] } none),
       Action.post_comment d.target_project_id d.attrs_iid
         (mr_review_comment (gemini_result env.gemini))]
  else []

/-- First entry of the MR listing whose `id` equals `noteable_id`, then its
`iid` (mr.py lines 393-397; Python `==` on possibly-missing values is
`Option` equality). -/
def lookup_mr_iid (mrs : List MrListEntry) (nid : Option Int) : Option Int :=
  match mrs.find? (fun m => decide (m.id = nid)) with
  | some m => m.iid
  | none => none

/-- The three-step `mr_iid` resolution of mr.py lines 375-399, returning
the resolved iid and the outbound calls it made (method 3 lists the
project's MRs). -/
def resolve_mr_iid (d : Payload) (env : Env) : Option Int × List Action :=
  if d.noteable_type = some (S "MergeRequest") then
    match d.noteable_iid with
    | some i => (some i, [])
    | none =>
      match (if d.has_merge_request then d.merge_request_iid else none) with
      | some i => (some i, [])
      | none =>
        (match env.mr_list with
         | none => none
         | some mrs => lookup_mr_iid mrs d.noteable_id,
         [Action.list_mrs d.project_id])
  else (none, [])

/-- `process_note_in_background` (mr.py lines 356-504) as the list of
outbound actions it performs: resolve the MR iid, abort unless the note is
on a resolved merge request, abort on the bot's own signature, extract a
user prompt, and if one was found fetch the diff (posting the fallback
comment when that fails) then fetch metadata, generate and post the
attributed review comment. -/
def process_note_in_background (d : Payload) (env : Env) : List Action :=
  if d.noteable_type ≠ some (S "MergeRequest") ∨ (resolve_mr_iid d env).1 = none then
    (resolve_mr_iid d env).2
  else if pyIn BOT_SIGNATURE (d.note.getD []) then (resolve_mr_iid d env).2
  else
    match extract_user_prompt (d.note.getD []) with
    | none => (resolve_mr_iid d env).2
    | some up =>
      match env.changes with
      | none =>
        (resolve_mr_iid d env).2 ++
          [Action.fetch_changes d.project_id (resolve_mr_iid d env).1,
           Action.post_comment d.project_id (resolve_mr_iid d env).1 fallback_comment]
      | some cd =>
        (resolve_mr_iid d env).2 ++
          [Action.fetch_changes d.project_id (resolve_mr_iid d env).1,
           Action.fetch_mr_meta d.project_id (resolve_mr_iid d env).1,
           Action.call_gemini (analyze_with_gemini_for_comment_prompt cd
             { title := (env.mr_meta.bind (·.title)).getD (S "제목 없음"),
               description := (env.mr_meta.bind (·.description)).getD (S "설명 없음") }
             (some up)),
           Action.post_comment d.project_id (resolve_mr_iid d env).1
             (note_review_comment (d.username.getD []) (gemini_result env.gemini))]

/-- A successfully parsed webhook POST body. JSON parsing can also yield a
non-object literal (such as `[]` or `null`), which is valid JSON but is not
a dict: every `data.get(...)` attribute access on it raises, so it is
represented separately from object payloads. -/
inductive ParsedBody where
  | obj (d : Payload)
  | nonObject
deriving DecidableEq

/-- Inbound request to `/webhook/gitlab`: a GET probe, or a POST whose
body either failed JSON parsing (`none`) or parsed to a JSON value. -/
inductive WebhookRequest where
  | get
  | post (body : Option ParsedBody)
deriving DecidableEq

/-- A background task handed to `threading.Thread` by the dispatcher. -/
inductive BgTask where
  | mr (d : Payload)
  | note (d : Payload)
deriving DecidableEq

/-- The dispatcher's synchronous reply together with the background task
it scheduled, if any. -/
structure WebhookResponse where
  status : PyStr
  http_code : Nat
  task : Option BgTask
deriving DecidableEq

/-- Outcome of one dispatcher invocation: a synchronous JSON reply, or an
uncaught exception escaping the view function (the web framework then
answers HTTP 500 with no JSON status, and no task was scheduled). -/
inductive WebhookOutcome where
  | reply (r : WebhookResponse)
  | crash
deriving DecidableEq

/-- The background task an outcome scheduled (a crash scheduled none). -/
def scheduled_task : WebhookOutcome → Option BgTask
  | .reply r => r.task
  | .crash => none

/-- The HTTP status code the client receives: the reply code, or 500 when
the handler raised (the framework's default error response). -/
def outcome_http_code : WebhookOutcome → Nat
  | .reply r => r.http_code
  | .crash => 500

/-- The JSON `status` field the client receives, if any (a crash produces
the framework's HTML error page, with no JSON status). -/
def outcome_status : WebhookOutcome → Option PyStr
  | .reply r => some r.status
  | .crash => none

/-- `gitlab_webhook` (mr.py lines 521-592): GET probe answers 200;
unparseable JSON raises inside the try block and answers 400; for a parsed
non-object body the `data.get("object_kind", ...)` access at line 546 lies
outside the try block, so its AttributeError escapes the handler (HTTP 500
via the framework, nothing scheduled); for a parsed object,
`merge_request` and `note` payloads are acknowledged with 202 and a
background task, everything else is ignored with 200 and no task. -/
def gitlab_webhook : WebhookRequest → WebhookOutcome
  | .get => .reply ⟨S "success", 200, none⟩
  | .post none => .reply ⟨S "error", 400, none⟩
  | .post (some .nonObject) => .crash
  | .post (some (.obj d)) =>
    let kind := d.object_kind.getD (S "알 수 없음")
    if kind = S "merge_request" then .reply ⟨S "accepted", 202, some (.mr d)⟩
    else if kind = S "note" then .reply ⟨S "accepted", 202, some (.note d)⟩
    else .reply ⟨S "ignored", 200, none⟩

/-- MR metadata fixture used by the concrete runs. -/
def sample_mr_info : MrInfo := ⟨S "버그 수정", S "널 체크 추가"⟩

/-- A documentation-only diff entry. -/
def change_readme : Change :=
  ⟨some (S "README.md"), some (S "README.md"), some (S "+ docs")⟩

/-- A source-code diff entry. -/
def change_main_go : Change :=
  ⟨some (S "main.go"), some (S "main.go"), some (S "+ x := 1")⟩

/-- Changeset fixture holding one excluded and one included file. -/
def sample_changes : ChangesData := ⟨[change_readme, change_main_go]⟩

/-- A note-event payload fixture on MR iid 5 of project 1. -/
def sample_note_payload (body : String) : Payload :=
  { object_kind := some (S "note"), action := none, target_project_id := none,
    attrs_iid := none, attrs_title := none, attrs_description := none,
    note_id := some 9, note := some (S body), project_id := some 1,
    noteable_type := some (S "MergeRequest"), noteable_id := some 77,
    noteable_iid := some 5, has_merge_request := false,
    merge_request_iid := none, username := some (S "alice") }

/-- An MR-event payload fixture with a given action. -/
def sample_mr_payload (action : String) : Payload :=
  { object_kind := some (S "merge_request"), action := some (S action),
    target_project_id := some 1, attrs_iid := some 5,
    attrs_title := some (S "버그 수정"), attrs_description := some (S "널 체크 추가"),
    note_id := none, note := none, project_id := none, noteable_type := none,
    noteable_id := none, noteable_iid := none, has_merge_request := false,
    merge_request_iid := none, username := none }

/-- Environment in which every outbound call succeeds. -/
def env_ok : Env :=
  { changes := some sample_changes, mr_list := none,
    mr_meta := some ⟨some (S "버그 수정"), some (S "널 체크 추가")⟩,
    gemini := .ok (S "분석 결과") }

/-- Environment in which the diff fetch fails (timeout / non-200). -/
def env_fetch_fail : Env :=
  { changes := none, mr_list := none, mr_meta := none,
    gemini := .ok (S "분석 결과") }

/-- If `n` matches at the start of `x`, it still does after appending. -/
theorem pyStarts_append_right (n : PyStr) :
    ∀ x t : PyStr, pyStarts n x = true → pyStarts n (x ++ t) = true := by
  induction n with
  | nil => intro x t _; simp [pyStarts]
  | cons a n ih =>
    intro x t h
    cases x with
    | nil => simp [pyStarts] at h
    | cons b x2 =>
      simp only [pyStarts, List.cons_append, Bool.and_eq_true] at h ⊢
      exact ⟨h.1, ih x2 t h.2⟩

/-- A substring of `pre` is a substring of `pre ++ t`. -/
theorem pyIn_append_left (n : PyStr) :
    ∀ pre t : PyStr, pyIn n pre = true → pyIn n (pre ++ t) = true := by
  intro pre
  induction pre with
  | nil =>
    intro t h
    simp only [pyIn, pyFind] at h
    by_cases hn : pyStarts n [] = true
    · have hx : pyStarts n t = true := by
        have := pyStarts_append_right n [] t hn
        simpa using this
      cases t with
      | nil => simpa [pyIn, pyFind] using h
      | cons c t2 => simp [pyIn, pyFind, hx]
    · simp [hn] at h
  | cons c p ih =>
    intro t h
    simp only [pyIn, pyFind] at h
    by_cases hs : pyStarts n (c :: p) = true
    · have hx : pyStarts n (c :: (p ++ t)) = true := by
        have := pyStarts_append_right n (c :: p) t hs
        simpa using this
      simp [pyIn, pyFind, hx]
    · simp only [hs, if_false, Option.isSome_map] at h
      have hp : pyIn n (p ++ t) = true := ih t (by simpa [pyIn] using h)
      by_cases hx : pyStarts n (c :: (p ++ t)) = true
      · simp [pyIn, pyFind, hx]
      · simp only [pyIn, pyFind, List.cons_append, List.append_eq]
        rw [if_neg hx]
        simpa [pyIn, Option.isSome_map] using hp

/-- The iid-resolution step performs no outbound call, or exactly the MR
listing of its method 3. -/
theorem resolve_acts_cases (d : Payload) (env : Env) :
    (resolve_mr_iid d env).2 = [] ∨
    (resolve_mr_iid d env).2 = [Action.list_mrs d.project_id] := by
  unfold resolve_mr_iid
  by_cases h : d.noteable_type = some (S "MergeRequest")
  · simp only [h, if_pos]
    cases d.noteable_iid with
    | some i => simp
    | none =>
      cases hm : (if d.has_merge_request then d.merge_request_iid else none) with
      | some i => simp [hm]
      | none => simp [hm]
  · simp [h]

/-- The iid-resolution step never posts a comment. -/
theorem resolve_acts_no_posts (d : Payload) (env : Env) :
    posted_comments (resolve_mr_iid d env).2 = [] := by
  rcases resolve_acts_cases d env with h | h <;> simp [h, posted_comments]

/-- `posted_comments` distributes over concatenation of action lists. -/
theorem posted_comments_append (l1 l2 : List Action) :
    posted_comments (l1 ++ l2) = posted_comments l1 ++ posted_comments l2 := by
  simp [posted_comments]

/-- The explicit-trigger scan agrees with "first trigger contained in the
lowercased body, sliced at its first occurrence": if `t` is the first
element of `L` contained in the lowercased body and occurs there at index
`i`, the scan yields the stripped slice of the original body after
position `i + length t`. -/
theorem extractExplicitAux_spec (body : PyStr) :
    ∀ (L : List PyStr) (t : PyStr) (i : Nat),
      L.find? (fun tr => pyIn tr (pyLower body)) = some t →
      pyFind t (pyLower body) = some i →
      extractExplicitAux body (pyLower body) L =
        some (pyStrip (body.drop (i + t.length))) := by
  intro L
  induction L with
  | nil => intro t i hft _; simp [List.find?] at hft
  | cons t0 rest ih =>
    intro t i hft hf
    by_cases h0 : pyIn t0 (pyLower body) = true
    · have hcons : List.find? (fun tr => pyIn tr (pyLower body)) (t0 :: rest) =
          some t0 := by
        simp [List.find?_cons, h0]
      rw [hcons] at hft
      injection hft with heq
      subst heq
      unfold extractExplicitAux
      rw [hf]
    · have hcons : List.find? (fun tr => pyIn tr (pyLower body)) (t0 :: rest) =
          List.find? (fun tr => pyIn tr (pyLower body)) rest := by
        simp [List.find?_cons, h0]
      rw [hcons] at hft
      have hnone : pyFind t0 (pyLower body) = none := by
        cases hh : pyFind t0 (pyLower body) with
        | none => rfl
        | some j => exact absurd (by simp [pyIn, hh]) h0
      unfold extractExplicitAux
      rw [hnone]
      exact ih t i hft hf

/-- C1: for every note body containing the bot signature marker, the
Command Extractor (signature guard plus trigger scan) yields no user
instruction, and the note handler performs neither a diff fetch, nor a
generation call, nor a comment post (at most the MR-list lookup of the
iid-resolution step, which precedes the guard in the code). -/
theorem C1_signature_cycle_prevention (d : Payload) (env : Env)
    (h : pyIn BOT_SIGNATURE (d.note.getD []) = true) :
    command_extractor (d.note.getD []) = none ∧
    (process_note_in_background d env).all is_mr_listing = true := by
  refine ⟨by simp [command_extractor, h], ?_⟩
  have hacts := resolve_acts_cases d env
  unfold process_note_in_background
  by_cases hg : d.noteable_type ≠ some (S "MergeRequest") ∨
      (resolve_mr_iid d env).1 = none
  · rw [if_pos hg]
    rcases hacts with h2 | h2 <;> simp [h2, is_mr_listing]
  · rw [if_neg hg, if_pos h]
    rcases hacts with h2 | h2 <;> simp [h2, is_mr_listing]

/-- Witness for C1 at a concrete self-authored echo note. -/
theorem C1_signature_cycle_prevention_witness :
    command_extractor ((sample_note_payload "## 🤖 AI 코드 리뷰 결과").note.getD []) =
      none ∧
    (process_note_in_background (sample_note_payload "## 🤖 AI 코드 리뷰 결과")
      env_ok).all is_mr_listing = true :=
  C1_signature_cycle_prevention (sample_note_payload "## 🤖 AI 코드 리뷰 결과")
    env_ok (by decide)

/-- C2 (refuted, code bug): both review-comment templates embed the
signature marker, but the note-path fallback comment posted when the diff
fetch fails does not; on a note event whose fetch fails, the handler posts
exactly that unsigned comment. (The text even contains the simple trigger
"리뷰", so the bot reprocesses its own fallback comment — the very loop the
marker exists to prevent.) -/
theorem C2_fallback_comment_lacks_signature :
    (∀ analysis : PyStr,
        pyIn BOT_SIGNATURE (mr_review_comment analysis) = true) ∧
    (∀ username analysis : PyStr,
        pyIn BOT_SIGNATURE (note_review_comment username analysis) = true) ∧
    pyIn BOT_SIGNATURE fallback_comment = false ∧
    pyIn (S "리뷰") fallback_comment = true ∧
    posted_comments
        (process_note_in_background (sample_note_payload "/review") env_fetch_fail) =
      [fallback_comment] := by
  refine ⟨?_, ?_, by decide, by decide, by decide⟩
  · intro analysis
    exact pyIn_append_left BOT_SIGNATURE (S "\n## " ++ BOT_SIGNATURE ++ S "\n\n")
      _ (by decide)
  · intro username analysis
    exact pyIn_append_left BOT_SIGNATURE
      (S "\n## " ++ BOT_SIGNATURE ++ S " - 사용자 요청\n\n") _ (by decide)

/-- C3 counterexample: for the payload `object_kind = "merge_request"`,
`action = "close"`, the dispatcher does schedule a background task and
replies 202/accepted, contradicting "no background task is scheduled and
the response is of the 200/ignored class". -/
theorem C3_counterexample :
    ¬ (scheduled_task
        (gitlab_webhook (.post (some (.obj (sample_mr_payload "close"))))) = none ∧
       outcome_http_code
        (gitlab_webhook (.post (some (.obj (sample_mr_payload "close"))))) = 200) := by
  decide

/-- C3 amended: for every merge-request payload whose action is outside
the open/update set, the dispatcher still schedules a full-review
background task and replies 202/accepted, but that task aborts
immediately: it performs no outbound call and posts no comment. -/
theorem C3_nonopen_action_task_aborts (d : Payload) (env : Env)
    (hk : d.object_kind = some (S "merge_request"))
    (ha : ¬ (d.action = some (S "open") ∨ d.action = some (S "update"))) :
    gitlab_webhook (.post (some (.obj d))) =
      .reply ⟨S "accepted", 202, some (.mr d)⟩ ∧
    process_mr_in_background d env = [] := by
  constructor
  · simp [gitlab_webhook, hk]
  · unfold process_mr_in_background
    rw [if_neg ha]

/-- Witness for C3's amended statement at `action = "close"`. -/
theorem C3_nonopen_action_task_aborts_witness :
    gitlab_webhook (.post (some (.obj (sample_mr_payload "close")))) =
      .reply ⟨S "accepted", 202, some (.mr (sample_mr_payload "close"))⟩ ∧
    process_mr_in_background (sample_mr_payload "close") env_ok = [] :=
  C3_nonopen_action_task_aborts (sample_mr_payload "close") env_ok
    (by decide) (by decide)

/-- C4: when some explicit trigger ("@bot", "/review", "/analyze") occurs
in the lowercased body, the extracted instruction is the slice of the
original body after the first occurrence of the first matching trigger in
priority order, stripped of surrounding whitespace; in particular
"/analyze please check null checks" yields "please check null checks". -/
theorem C4_explicit_trigger_extraction :
    (∀ (body t : PyStr) (i : Nat),
        command_triggers.find? (fun tr => pyIn tr (pyLower body)) = some t →
        pyFind t (pyLower body) = some i →
        extract_user_prompt body = some (pyStrip (body.drop (i + t.length)))) ∧
    extract_user_prompt (S "/analyze please check null checks") =
      some (S "please check null checks") := by
  refine ⟨?_, by decide⟩
  intro body t i hft hf
  have h : extractExplicit body = some (pyStrip (body.drop (i + t.length))) :=
    extractExplicitAux_spec body command_triggers t i hft hf
  unfold extract_user_prompt
  rw [h]

/-- Witness for C4 at the body "@bot please". -/
theorem C4_explicit_trigger_extraction_witness :
    extract_user_prompt (S "@bot please") = some (S "please") := by
  have h := C4_explicit_trigger_extraction.1 (S "@bot please") (S "@bot") 0
    (by decide) (by decide)
  exact h.trans (by decide)

/-- C5: with no explicit trigger, a body containing one of the simple
phrases "코드리뷰" / "코드 리뷰" / "리뷰" yields the entire stripped body as
the instruction ("코드 리뷰 부탁드려요" yields itself); and whenever
"/review" occurs, the explicit extraction wins over the whole-body rule
(concretely, "코드 리뷰 /review 널 체크" yields "널 체크", not the whole
body). -/
theorem C5_simple_trigger_extraction :
    (∀ body : PyStr, extractExplicit body = none →
        simple_triggers.any (fun t => pyIn t (pyLower body)) = true →
        extract_user_prompt body = some (pyStrip body)) ∧
    extract_user_prompt (S "코드 리뷰 부탁드려요") =
      some (S "코드 리뷰 부탁드려요") ∧
    (∀ body : PyStr, pyIn (S "/review") (pyLower body) = true →
        extract_user_prompt body = extractExplicit body ∧
        extractExplicit body ≠ none) ∧
    extract_user_prompt (S "코드 리뷰 /review 널 체크") = some (S "널 체크") := by
  refine ⟨?_, by decide, ?_, by decide⟩
  · intro body hex hsimp
    unfold extract_user_prompt
    rw [hex]
    simp [extractSimple, hsimp]
  · intro body hrev
    obtain ⟨j, hj⟩ : ∃ j, pyFind (S "/review") (pyLower body) = some j := by
      cases hh : pyFind (S "/review") (pyLower body) with
      | none => exact absurd hrev (by simp [pyIn, hh])
      | some j => exact ⟨j, rfl⟩
    obtain ⟨p, hp⟩ : ∃ p, extractExplicit body = some p := by
      unfold extractExplicit command_triggers extractExplicitAux
      cases h1 : pyFind (S "@bot") (pyLower body) with
      | some i => exact ⟨_, rfl⟩
      | none =>
        unfold extractExplicitAux
        rw [hj]
        exact ⟨_, rfl⟩
    constructor
    · unfold extract_user_prompt
      rw [hp]
    · simp [hp]

/-- Witness for C5 at the bodies "리뷰 부탁해요" (simple-trigger branch) and
"제발 /review 좀" (priority branch). -/
theorem C5_simple_trigger_extraction_witness :
    extract_user_prompt (S "리뷰 부탁해요") = some (S "리뷰 부탁해요") ∧
    extract_user_prompt (S "제발 /review 좀") =
      extractExplicit (S "제발 /review 좀") := by
  constructor
  · have h := C5_simple_trigger_extraction.1 (S "리뷰 부탁해요")
      (by decide) (by decide)
    exact h.trans (by decide)
  · exact (C5_simple_trigger_extraction.2.2.1 (S "제발 /review 좀") (by decide)).1

/-- C6 counterexample: a POST whose body parses to a non-object JSON value
(e.g. `[]` or `null`) is a parsed POST outside the accepted kinds, yet it
does not get a 200/ignored reply: `data.get("object_kind", ...)` at
mr.py line 546 lies outside the try block, its AttributeError escapes the
handler and the request surfaces as HTTP 500. -/
theorem C6_counterexample :
    gitlab_webhook (.post (some .nonObject)) = .crash ∧
    outcome_http_code (gitlab_webhook (.post (some .nonObject))) = 500 ∧
    outcome_http_code (gitlab_webhook (.post (some .nonObject))) ≠ 200 := by
  decide

/-- C6 amended: a GET answers 200/success; a POST whose body fails JSON
parsing answers 400/error; a parsed POST whose body is a JSON object of
kind "merge_request" or "note" answers 202/accepted with a scheduled
background task; every other parsed POST whose body is a JSON object
answers 200/ignored with no background work; and a parsed POST whose body
is not a JSON object raises out of the handler at the object_kind access
(HTTP 500), scheduling no background work. -/
theorem C6_webhook_responses :
    gitlab_webhook .get = .reply ⟨S "success", 200, none⟩ ∧
    gitlab_webhook (.post none) = .reply ⟨S "error", 400, none⟩ ∧
    (∀ d : Payload,
        d.object_kind = some (S "merge_request") ∨ d.object_kind = some (S "note") →
        outcome_status (gitlab_webhook (.post (some (.obj d)))) =
          some (S "accepted") ∧
        outcome_http_code (gitlab_webhook (.post (some (.obj d)))) = 202 ∧
        scheduled_task (gitlab_webhook (.post (some (.obj d)))) ≠ none) ∧
    (∀ d : Payload,
        d.object_kind ≠ some (S "merge_request") →
        d.object_kind ≠ some (S "note") →
        gitlab_webhook (.post (some (.obj d))) = .reply ⟨S "ignored", 200, none⟩) ∧
    (gitlab_webhook (.post (some .nonObject)) = .crash ∧
     scheduled_task (gitlab_webhook (.post (some .nonObject))) = none) := by
  refine ⟨by decide, by decide, ?_, ?_, by decide⟩
  · intro d hk
    rcases hk with hk | hk
    · simp [gitlab_webhook, hk, outcome_status, outcome_http_code, scheduled_task]
    · simp only [gitlab_webhook, hk, Option.getD_some]
      rw [if_neg (by decide)]
      exact ⟨rfl, rfl, by simp [scheduled_task]⟩
  · intro d h1 h2
    cases hh : d.object_kind with
    | none =>
      simp only [gitlab_webhook, hh, Option.getD_none]
      rw [if_neg (by decide), if_neg (by decide)]
    | some k =>
      have hk1 : k ≠ S "merge_request" := fun hc => h1 (by rw [hh, hc])
      have hk2 : k ≠ S "note" := fun hc => h2 (by rw [hh, hc])
      simp [gitlab_webhook, hh, hk1, hk2]

/-- Witness for C6's amended statement at a note payload and a push-event
payload. -/
theorem C6_webhook_responses_witness :
    outcome_http_code
      (gitlab_webhook (.post (some (.obj (sample_note_payload "/review"))))) =
      202 ∧
    gitlab_webhook (.post (some (.obj
      { sample_mr_payload "open" with object_kind := some (S "push") }))) =
      .reply ⟨S "ignored", 200, none⟩ := by
  constructor
  · exact ((C6_webhook_responses.2.2.1 (sample_note_payload "/review")
      (Or.inr (by decide))).2).1
  · exact C6_webhook_responses.2.2.2.1
      { sample_mr_payload "open" with object_kind := some (S "push") }
      (by decide) (by decide)

/-- C7: when the diff fetch returns the failure sentinel, the full-review
task posts nothing, and the note task (on a resolved MR note that passed
the signature guard and yielded an instruction) posts exactly the one
explanatory fallback comment. -/
theorem C7_fetch_failure_fallback :
    (∀ (d : Payload) (env : Env), env.changes = none →
        posted_comments (process_mr_in_background d env) = []) ∧
    (∀ (d : Payload) (env : Env) (i : Int) (up : PyStr),
        env.changes = none →
        d.noteable_type = some (S "MergeRequest") →
        (resolve_mr_iid d env).1 = some i →
        pyIn BOT_SIGNATURE (d.note.getD []) = false →
        extract_user_prompt (d.note.getD []) = some up →
        posted_comments (process_note_in_background d env) =
          [fallback_comment]) := by
  constructor
  · intro d env hc
    unfold process_mr_in_background
    by_cases ha : d.action = some (S "open") ∨ d.action = some (S "update")
    · rw [if_pos ha, hc]
      simp [posted_comments]
    · rw [if_neg ha]
      simp [posted_comments]
  · intro d env i up hc ht hi hsig hup
    unfold process_note_in_background
    rw [if_neg (by simp [ht, hi]), if_neg (by simp [hsig]), hup, hc]
    rw [posted_comments_append, resolve_acts_no_posts d env]
    simp [posted_comments]

/-- Witness for C7: a concrete open-MR task and a concrete "/review" note
task, both against the environment whose diff fetch fails. -/
theorem C7_fetch_failure_fallback_witness :
    posted_comments
        (process_mr_in_background (sample_mr_payload "open") env_fetch_fail) = [] ∧
    posted_comments
        (process_note_in_background (sample_note_payload "/review") env_fetch_fail) =
      [fallback_comment] := by
  constructor
  · exact C7_fetch_failure_fallback.1 (sample_mr_payload "open") env_fetch_fail rfl
  · exact C7_fetch_failure_fallback.2 (sample_note_payload "/review")
      env_fetch_fail 5 [] rfl (by decide) (by decide) (by decide) (by decide)

set_option maxRecDepth 20000 in
/-- C8: a change record contributes a file section (path plus raw diff) to
the prompt exactly when the lowercased extension of its path (new_path if
present, otherwise old_path) is in the source-code allow-list; README.md
contributes nothing while main.go is included, and exclusion is silent. -/
theorem C8_extension_allow_list :
    (∀ c : Change,
        code_extensions.contains (pyLower (splitext_ext (change_path c))) = false →
        file_section c = []) ∧
    (∀ c : Change,
        code_extensions.contains (pyLower (splitext_ext (change_path c))) = true →
        file_section c = S "\n\n파일: " ++ change_path c ++ S "\n" ++
          S "변경사항:\n" ++ c.diff.getD (S "변경사항 없음") ++ S "\n") ∧
    (∀ (p : PyStr) (o df : Option PyStr), change_path ⟨o, some p, df⟩ = p) ∧
    (∀ (q : PyStr) (df : Option PyStr), change_path ⟨some q, none, df⟩ = q) ∧
    file_section change_readme = [] ∧
    pyIn (S "main.go")
        (analyze_with_gemini_prompt sample_changes sample_mr_info none) = true ∧
    pyIn (S "README.md")
        (analyze_with_gemini_prompt sample_changes sample_mr_info none) = false := by
  refine ⟨?_, ?_, ?_, ?_, by decide, by decide, by decide⟩
  · intro c h
    simp only [file_section]
    rw [if_neg (by rw [Bool.not_eq_true]; exact h)]
  · intro c h
    simp only [file_section]
    rw [if_pos h]
  · intro p o df
    simp [change_path]
  · intro q df
    simp [change_path]

/-- Witness for C8 at the two concrete change records. -/
theorem C8_extension_allow_list_witness :
    file_section change_main_go = S "\n\n파일: " ++ change_path change_main_go ++
      S "\n" ++ S "변경사항:\n" ++ change_main_go.diff.getD (S "변경사항 없음") ++
      S "\n" ∧
    file_section change_readme = [] := by
  constructor
  · exact C8_extension_allow_list.2.1 change_main_go (by decide)
  · exact C8_extension_allow_list.1 change_readme (by decide)

/-- C9 counterexample: the two prompt builders are not identical up to the
closing instruction — already on the empty changeset with empty metadata
and no user instruction, the prompts with their closing instructions
removed differ (the opening instruction sentences differ). -/
theorem C9_counterexample :
    ¬ (prompt_core_full ⟨[]⟩ ⟨[], []⟩ none =
       prompt_core_comment ⟨[]⟩ ⟨[], []⟩ none) := by
  decide

/-- C9 amended: on every input the two builders produce
`opening ++ shared ++ closing` with the title/description block, the
user-request section, the files heading and the per-file sections
(`prompt_shared_sections`) literally shared; they differ in the opening
instruction sentence as well as in the closing instruction. -/
theorem C9_prompt_builders_shared_middle :
    ∀ (cd : ChangesData) (mi : MrInfo) (up : Option PyStr),
      analyze_with_gemini_prompt cd mi up =
        prompt_opening_full ++ prompt_shared_sections cd mi up ++
          prompt_closing_full ∧
      analyze_with_gemini_for_comment_prompt cd mi up =
        prompt_opening_comment ++ prompt_shared_sections cd mi up ++
          prompt_closing_comment ∧
      prompt_opening_full ≠ prompt_opening_comment ∧
      prompt_closing_full ≠ prompt_closing_comment := by
  intro cd mi up
  refine ⟨?_, ?_, by decide, by decide⟩
  · simp [analyze_with_gemini_prompt, prompt_core_full, prompt_shared_sections,
      List.append_assoc]
  · simp [analyze_with_gemini_for_comment_prompt, prompt_core_comment,
      prompt_shared_sections, List.append_assoc]

set_option maxRecDepth 20000 in
/-- C10: a body that is exactly "/review" extracts the empty instruction
(not "no instruction"): the note task still fetches, generates and posts,
while the prompt builder treats the empty instruction as absent, so the
assembled prompt has no user-request section. -/
theorem C10_empty_instruction_still_reviews :
    extract_user_prompt (S "/review") = some [] ∧
    (∀ (cd : ChangesData) (mi : MrInfo),
        analyze_with_gemini_for_comment_prompt cd mi (some []) =
          analyze_with_gemini_for_comment_prompt cd mi none) ∧
    process_note_in_background (sample_note_payload "/review") env_ok =
      [Action.fetch_changes (some 1) (some 5),
       Action.fetch_mr_meta (some 1) (some 5),
       Action.call_gemini (analyze_with_gemini_for_comment_prompt sample_changes
         ⟨S "버그 수정", S "널 체크 추가"⟩ (some [])),
       Action.post_comment (some 1) (some 5)
         (note_review_comment (S "alice") (S "분석 결과"))] ∧
    pyIn (S "사용자 요청")
        (analyze_with_gemini_for_comment_prompt sample_changes
          ⟨S "버그 수정", S "널 체크 추가"⟩ (some [])) = false := by
  refine ⟨by decide, ?_, by decide, by decide⟩
  intro cd mi
  simp [analyze_with_gemini_for_comment_prompt, prompt_core_comment,
    prompt_user_section, pyTruthy]

end MRBot
